import Mathlib

/-!
Verification development for the Library.shadow-DR-Conversion platform
abstraction layer.  The TypeScript source is shallowly embedded: pure
converter functions become Lean functions; provider methods become
functions of an explicit connection flag plus an oracle record standing
for the native SDK, returning an `Except` result together with the list
of native SDK calls performed; JavaScript `undefined` is `Option.none`;
JavaScript truthiness is modelled explicitly (`""` and `0` are falsy,
objects are truthy).
-/

deriving instance DecidableEq for Except

namespace Bridge

/-- Truthiness of an optional JS string: `undefined` and `""` are falsy. -/
def strTruthy : Option String → Bool
  | some s => !(s == "")
  | none => false

/-! ## Hex colors (`BaseProvider.normalizeColor` / `normalizeColorToHex`,
src/providers/base.ts lines 175-201) -/

/-- A color value as accepted by the converters: `string | number`.
JS numbers in the color positions are non-negative integers, so `Nat`. -/
inductive ColorValue where
  | str (s : String)
  | num (n : Nat)
deriving Repr, DecidableEq

/-- Digit value of a hex digit character (0-9, a-f, A-F). -/
def hexCharVal? (c : Char) : Option Nat :=
  if 48 ≤ c.toNat ∧ c.toNat ≤ 57 then some (c.toNat - 48)
  else if 97 ≤ c.toNat ∧ c.toNat ≤ 102 then some (c.toNat - 87)
  else if 65 ≤ c.toNat ∧ c.toNat ≤ 70 then some (c.toNat - 55)
  else none

/-- Whether a character is a hex digit. -/
def isHexDigitChar (c : Char) : Bool := (hexCharVal? c).isSome

/-- Junk-valued total version of `hexCharVal?`. -/
def hexCharVal (c : Char) : Nat := (hexCharVal? c).getD 0

/-- Accumulating parser behind `jsParseIntHex`: consumes hex digits until
the first non-digit, like JS `parseInt` with radix 16. -/
def parseHexAux : List Char → Nat → Nat
  | [], acc => acc
  | c :: cs, acc =>
    match hexCharVal? c with
    | some d => parseHexAux cs (16 * acc + d)
    | none => acc

/-- JS `parseInt(s, 16)` restricted to the inputs the color contract uses:
parses the maximal leading run of hex digits, `none` for NaN (no leading
hex digit).  Leading whitespace, signs and a `0x` marker, which real
`parseInt` also accepts, never occur in color strings and are not
modelled. -/
def jsParseIntHex (s : String) : Option Nat :=
  match s.data with
  | [] => none
  | c :: _ => if isHexDigitChar c then some (parseHexAux s.data 0) else none

/-- JS `color.replace(#, ...)` with the empty string: removes the first
occurrence of the hash character only. -/
def removeFirstHash : List Char → List Char
  | [] => []
  | c :: cs => if c = '#' then cs else c :: removeFirstHash cs

/-- `BaseProvider.normalizeColor`: strings are hash-stripped and parsed as
hex, numbers pass through.  `none` in the result models NaN. -/
def normalizeColor : ColorValue → Option Nat
  | .str s => jsParseIntHex (String.mk (removeFirstHash s.data))
  | .num n => some n

/-- Lowercase hex digit character for a value below 16, as produced by JS
`Number.prototype.toString(16)`. -/
def hexDigitChar (d : Nat) : Char :=
  if d < 10 then Char.ofNat (48 + d) else Char.ofNat (87 + d)

/-- JS `n.toString(16)`: lowercase hex without leading zeros, `"0"` for 0. -/
def jsToStringHex (n : Nat) : String :=
  if n = 0 then "0" else String.mk (((Nat.digits 16 n).map hexDigitChar).reverse)

/-- JS `s.padStart(6, "0")`. -/
def padStart6 (s : String) : String :=
  if s.length < 6 then String.mk (List.replicate (6 - s.length) '0') ++ s else s

/-- `BaseProvider.normalizeColorToHex`: numbers are rendered as
`"#"` + 6-padded lowercase hex; strings get a leading hash added when
missing. -/
def normalizeColorToHex : ColorValue → String
  | .num n => "#" ++ padStart6 (jsToStringHex n)
  | .str s => if s.startsWith "#" then s else "#" ++ s


/-! ## Generic rich-content data model (src/types/embeds.ts) -/

/-- A field in a generic embed. -/
structure EmbedField where
  name : String
  value : String
  inline : Option Bool
deriving Repr, DecidableEq

/-- Footer of a generic embed. -/
structure EmbedFooter where
  text : String
  iconUrl : Option String
deriving Repr, DecidableEq

/-- Image or thumbnail of a generic embed. -/
structure EmbedImage where
  url : String
  width : Option Nat
  height : Option Nat
deriving Repr, DecidableEq

/-- Author block of a generic embed. -/
structure EmbedAuthor where
  name : String
  iconUrl : Option String
  url : Option String
deriving Repr, DecidableEq

/-- Generic `Embed`.  A JS `Date` carries millisecond precision, so the
timestamp is its epoch-millisecond value. -/
structure Embed where
  title : Option String := none
  description : Option String := none
  url : Option String := none
  color : Option ColorValue := none
  fields : Option (List EmbedField) := none
  footer : Option EmbedFooter := none
  image : Option EmbedImage := none
  thumbnail : Option EmbedImage := none
  author : Option EmbedAuthor := none
  timestamp : Option Nat := none
deriving Repr, DecidableEq

/-- A file attachment in generic `MessageOptions`; the byte payload is
abstracted to its length. -/
structure FileAttachment where
  name : String
  dataLen : Nat
  description : Option String
deriving Repr, DecidableEq

/-- Generic `MessageOptions` (the fields the Discord and Root converters
read; `components`, `ephemeral` and `replyTo` are not consumed by the
converters under proof and are omitted). -/
structure MessageOptions where
  content : Option String := none
  embeds : Option (List Embed) := none
  files : Option (List FileAttachment) := none
  tts : Option Bool := none
deriving Repr, DecidableEq

/-! ## Discord embed converters
(src/providers/discord/converters.ts: `toGenericEmbed` lines 646-699,
`toDiscordEmbed` lines 704-751, `toDiscordMessageOptions` lines 756-785) -/

namespace Discord

/-- The data held by a discord.js `EmbedBuilder` / received `APIEmbed`.
Footer and author icons live in `icon_url` on the wire; `toGenericEmbed`
reads `iconURL ?? icon_url`, which this single field models.  The native
timestamp is an ISO-8601 string; it is modelled by the epoch-millisecond
value it denotes (the string is non-empty, hence truthy, whenever
present). -/
structure APIEmbed where
  title : Option String := none
  description : Option String := none
  url : Option String := none
  color : Option Nat := none
  fields : Option (List EmbedField) := none
  footer : Option EmbedFooter := none
  image : Option EmbedImage := none
  thumbnail : Option EmbedImage := none
  author : Option EmbedAuthor := none
  timestamp : Option Nat := none
deriving Repr, DecidableEq

/-- Hex-or-number color as converted inside `toDiscordEmbed`:
`typeof color === "string" ? parseInt(color.replace("#",""), 16) : color`.
This is the same computation as `normalizeColor`. -/
def embedColorToNum (c : ColorValue) : Option Nat := normalizeColor c

/-- `toDiscordEmbed`: each `if (embed.x) builder.setX(...)` call sets the
corresponding datum only when the generic value is truthy (non-empty
string, non-zero number, any object).  `setImage`/`setThumbnail` receive
only the URL, so native width/height stay unset.  A color string that
parses to NaN is modelled as leaving the color unset (no claim touches
malformed color strings). -/
def toDiscordEmbed (e : Embed) : APIEmbed :=
  { title := if strTruthy e.title then e.title else none
    description := if strTruthy e.description then e.description else none
    url := if strTruthy e.url then e.url else none
    color := match e.color with
      | some c =>
        match c with
        | .str s => if s ≠ "" then embedColorToNum (.str s) else none
        | .num n => if n ≠ 0 then some n else none
      | none => none
    fields := match e.fields with
      | some l => if l.length > 0 then some l else none
      | none => none
    footer := e.footer.map fun f => { text := f.text, iconUrl := f.iconUrl }
    image := e.image.map fun i => { url := i.url, width := none, height := none }
    thumbnail := e.thumbnail.map fun i => { url := i.url, width := none, height := none }
    author := e.author.map fun a => { name := a.name, iconUrl := a.iconUrl, url := a.url }
    timestamp := e.timestamp }

/-- `toGenericEmbed`: each `if (discordEmbed.x)` copies the native datum
when truthy (for `color`, a number, `0` is falsy and is dropped; `fields`
additionally requires a non-empty list; footer/image/thumbnail/author are
objects, hence truthy whenever present). -/
def toGenericEmbed (d : APIEmbed) : Embed :=
  { title := if strTruthy d.title then d.title else none
    description := if strTruthy d.description then d.description else none
    url := if strTruthy d.url then d.url else none
    color := match d.color with
      | some n => if n ≠ 0 then some (.num n) else none
      | none => none
    fields := match d.fields with
      | some l =>
        if l.length > 0 then
          some (l.map fun f => { name := f.name, value := f.value, inline := f.inline })
        else none
      | none => none
    footer := d.footer.map fun f => { text := f.text, iconUrl := f.iconUrl }
    image := d.image.map fun i => { url := i.url, width := i.width, height := i.height }
    thumbnail := d.thumbnail.map fun i => { url := i.url, width := i.width, height := i.height }
    author := d.author.map fun a => { name := a.name, iconUrl := a.iconUrl, url := a.url }
    timestamp := d.timestamp }

/-- Native Discord message-create options built by
`toDiscordMessageOptions` (the `components` branch needs discord.js
builder objects and is outside the embedded fragment). -/
structure MessageCreateOptions where
  content : Option String := none
  embeds : Option (List APIEmbed) := none
  files : Option (List FileAttachment) := none
  tts : Option Bool := none
deriving Repr, DecidableEq

/-- `toDiscordMessageOptions`: copies each truthy generic option into
native form; embeds are converted one by one with `toDiscordEmbed`. -/
def toDiscordMessageOptions (o : MessageOptions) : MessageCreateOptions :=
  { content := if strTruthy o.content then o.content else none
    embeds := match o.embeds with
      | some l => if l.length > 0 then some (l.map toDiscordEmbed) else none
      | none => none
    files := match o.files with
      | some l => if l.length > 0 then some l else none
      | none => none
    tts := match o.tts with
      | some b => if b then some b else none
      | none => none }

/-- A color survives the Discord round trip when it is truthy and parses
to a non-zero number (`0` is falsy in JS, so a zero color set on the
builder is dropped again by `toGenericEmbed`). -/
def colorSurvives (c : ColorValue) : Prop :=
  c ≠ .str "" ∧ embedColorToNum c ≠ none ∧ embedColorToNum c ≠ some 0

instance (c : ColorValue) : Decidable (colorSurvives c) := by
  unfold colorSurvives; infer_instance

/-- A concrete fully populated generic embed, used to instantiate the
round-trip statement. -/
def sampleEmbed : Bridge.Embed :=
  { title := some "t", description := some "d", url := some "u",
    color := some (.str "#ff0000"),
    fields := some [{ name := "f", value := "v", inline := some true }],
    footer := some { text := "ft", iconUrl := some "fi" },
    image := some { url := "iu", width := none, height := none },
    thumbnail := some { url := "tu", width := none, height := none },
    author := some { name := "a", iconUrl := some "ai", url := some "au" },
    timestamp := some 123 }

end Discord


/-! ## Shared provider helpers (src/providers/base.ts) and error texts
(src/utils/errors.ts) -/

/-- Message of the error thrown by `BaseProvider.ensureConnected`. -/
def notConnectedMsg (platformName : String) : String :=
  platformName ++ " provider is not connected. Call connect() first."

/-- Message of `ResourceNotFoundError(resourceType, resourceId)`. -/
def resourceNotFoundMsg (resourceType resourceId : String) : String :=
  resourceType ++ " with ID \x27" ++ resourceId ++ "\x27 not found"

/-- Message of `UnsupportedPlatformError(platform)`. -/
def platformNotSupportedMsg (platform : String) : String :=
  "Platform \x27" ++ platform ++ "\x27 is not supported"

/-! ## Root server-bot converter (src/unnamed/part_008, `toRootMessageOptions`
lines 169-198) and `RootProvider` (src/providers/root/provider.ts) -/

namespace Root

/-- Message of the rejection thrown for file attachments in
`toRootMessageOptions`. -/
def filesUnsupportedMsg : String :=
  "File attachments in Root require client-side upload token generation. " ++
  "The @rootsdk/server-bot package does not expose upload token APIs. " ++
  "Use @rootsdk/client-app for file uploads, or integrate with Root\x27s upload API directly."

/-- Message of the rejection thrown for embeds in `toRootMessageOptions`. -/
def embedsUnsupportedMsg : String := "Rich embeds are not supported by Root platform"

/-- The native options shape accepted by Root message creation. -/
structure RootMessageOptions where
  content : Option String := none
  attachmentTokenUris : Option (List String) := none
deriving Repr, DecidableEq

/-- `toRootMessageOptions`: copies a truthy `content`, then throws on a
non-empty `files` list, then throws on a non-empty `embeds` list
(`options.files && options.files.length > 0` and the analogous embeds
test); otherwise returns the options with attachments/embeds never set. -/
def toRootMessageOptions (o : MessageOptions) : Except String RootMessageOptions :=
  let contentOpt : Option String := if strTruthy o.content then o.content else none
  if (o.files.getD []).length > 0 then .error filesUnsupportedMsg
  else if (o.embeds.getD []).length > 0 then .error embedsUnsupportedMsg
  else .ok { content := contentOpt }

/-- One native Root SDK call, as recorded in an operation trace. -/
inductive RootCall where
  | createMessage (channelId : String) (opts : RootMessageOptions)
  | editNative (channelId messageId content : String)
  | deleteNative (channelId messageId : String)
  | getMember (userId : String)
  | getChannelNative (channelId : String)
  | getCommunity
deriving Repr, DecidableEq

/-- Oracle for the native `@rootsdk/server-bot` client.  Returned native
entities are abstracted to `Unit`; their conversion to generic shapes is
the subject of the converter claims, not of the provider control flow. -/
structure RootSdk where
  createMessage : String → RootMessageOptions → Except String Unit
  editNative : String → String → String → Except String Unit
  deleteNative : String → String → Except String Unit
  getMember : String → Except String Unit
  getChannelNative : String → Except String Unit
  getCommunity : Unit → Except String Unit

/-- The `typeof options === "string" ? { content: options } : options`
coercion at the top of `RootProvider.sendMessage`. -/
def coerceOptions : Sum String MessageOptions → MessageOptions
  | .inl s => { content := some s }
  | .inr o => o

/-- A concrete native-client oracle whose calls all resolve, used to
instantiate closed statements. -/
def trivialSdk : RootSdk :=
  { createMessage := fun _ _ => .ok ()
    editNative := fun _ _ _ => .ok ()
    deleteNative := fun _ _ => .ok ()
    getMember := fun _ => .ok ()
    getChannelNative := fun _ => .ok ()
    getCommunity := fun _ => .ok () }

/-- `RootProvider.sendMessage`: connect-guard, string-to-options coercion,
conversion through `toRootMessageOptions` (errors propagate unwrapped),
the `if (!rootOptions.content)` requirement, then the native create with
its failure wrapped as `Failed to send message: ...`. -/
def sendMessage (connected : Bool) (sdk : RootSdk) (channelId : String)
    (options : Sum String MessageOptions) : Except String Unit × List RootCall :=
  if !connected then (.error (notConnectedMsg "root"), [])
  else
    match toRootMessageOptions (coerceOptions options) with
    | .error e => (.error e, [])
    | .ok rootOptions =>
      if !(strTruthy rootOptions.content) then (.error "Message content is required", [])
      else
        match sdk.createMessage channelId rootOptions with
        | .error e =>
          (.error ("Failed to send message: " ++ e), [.createMessage channelId rootOptions])
        | .ok _ => (.ok (), [.createMessage channelId rootOptions])

/-- `RootProvider.editMessage`: connect-guard, then the native edit. -/
def editMessage (connected : Bool) (sdk : RootSdk)
    (messageId channelId content : String) : Except String Unit × List RootCall :=
  if !connected then (.error (notConnectedMsg "root"), [])
  else (sdk.editNative channelId messageId content, [.editNative channelId messageId content])

/-- `RootProvider.deleteMessage`: connect-guard, then the native delete. -/
def deleteMessage (connected : Bool) (sdk : RootSdk)
    (messageId channelId : String) : Except String Unit × List RootCall :=
  if !connected then (.error (notConnectedMsg "root"), [])
  else (sdk.deleteNative channelId messageId, [.deleteNative channelId messageId])

/-- `RootProvider.getUser`: connect-guard, then the community-member fetch. -/
def getUser (connected : Bool) (sdk : RootSdk) (userId : String) :
    Except String Unit × List RootCall :=
  if !connected then (.error (notConnectedMsg "root"), [])
  else (sdk.getMember userId, [.getMember userId])

/-- `RootProvider.getChannel`: connect-guard, then the channel fetch. -/
def getChannel (connected : Bool) (sdk : RootSdk) (channelId : String) :
    Except String Unit × List RootCall :=
  if !connected then (.error (notConnectedMsg "root"), [])
  else (sdk.getChannelNative channelId, [.getChannelNative channelId])

/-- `RootProvider.getGuild`: connect-guard, then the current-community
fetch (the guild id argument is ignored by the source). -/
def getGuild (connected : Bool) (sdk : RootSdk) (_guildId : String) :
    Except String Unit × List RootCall :=
  if !connected then (.error (notConnectedMsg "root"), [])
  else (sdk.getCommunity (), [.getCommunity])

/-! ### `RootProvider.connect` retry loop
(src/providers/root/provider.ts lines 929-1012) -/

/-- Reconnect tuning of `RootConfig`, with the `DEFAULT_ROOT_CONFIG` and
literal fallbacks applied through `??` (the defaults object supplies
5 attempts, 5000 ms delay, 30000 ms timeout). -/
structure ConnectConfig where
  maxReconnectAttempts : Option Nat := none
  reconnectDelay : Option Nat := none
  connectTimeout : Option Nat := none

/-- `Promise.race` of one `lifecycle.start` attempt against the connect
timeout: an attempt that would take at least the timeout is observed as
the `connect timeout` rejection, otherwise its own outcome.  (The tie at
exactly the timeout is resolved in favour of the timeout.) -/
def raceAttempt (connectTimeout : Nat) (durationMs : Nat)
    (res : Except String Unit) : Except String Unit :=
  if durationMs < connectTimeout then res else .error "connect timeout"

/-- Observable state of one run of the `for (attempt = 1; attempt <=
maxAttempts; ...)` loop: whether it connected, how many attempts ran, how
many inter-attempt sleeps happened, and the last attempt error. -/
structure GoState where
  connected : Bool
  attemptsUsed : Nat
  sleeps : Nat
  lastError : Option String
deriving Repr, DecidableEq

/-- The connect retry loop, by recursion on the remaining attempt budget;
`attemptIdx` is the 1-based number of the next attempt.  A failed attempt
sleeps (`reconnectDelay`) only when further attempts remain, exactly as
`if (attempt < maxAttempts)` does in the source. -/
def connectGo (att : Nat → Except String Unit) (attemptIdx : Nat) :
    Nat → GoState
  | 0 => ⟨false, 0, 0, none⟩
  | remaining + 1 =>
    match att attemptIdx with
    | .ok _ => ⟨true, 1, 0, none⟩
    | .error e =>
      if remaining = 0 then ⟨false, 1, 0, some e⟩
      else
        let r := connectGo att (attemptIdx + 1) remaining
        ⟨r.connected, r.attemptsUsed + 1, r.sleeps + 1, r.lastError⟩

/-- Result of `RootProvider.connect`: the thrown/returned outcome plus the
attempt/sleep counts and the per-sleep delay in force. -/
structure ConnectTrace where
  result : Except String Unit
  attemptsUsed : Nat
  sleeps : Nat
  sleepDelayMs : Nat
deriving Repr, DecidableEq

/-- Message of the terminal `AuthenticationError` thrown when every
attempt failed. -/
def connectFailMsg (maxAttempts : Nat) (orig : String) : String :=
  "Failed to connect after " ++ toString maxAttempts ++ " attempts: " ++ orig ++
  ".\nHints: ensure your token is correct and provided in the provider config or " ++
  "environment (ROOT_TOKEN), verify network connectivity to Root services, and " ++
  "ensure @rootsdk/server-bot is installed and up-to-date."

/-- The outcome of the i-th attempt after racing against the configured
timeout; `attemptBehavior i` gives the native duration and result of the
i-th `lifecycle.start` call. -/
def racedOutcome (cfg : ConnectConfig)
    (attemptBehavior : Nat → Nat × Except String Unit) (i : Nat) :
    Except String Unit :=
  raceAttempt (cfg.connectTimeout.getD 30000) (attemptBehavior i).1 (attemptBehavior i).2

/-- `RootProvider.connect` (retry-loop variant): resolves the reconnect
tuning with its defaults, runs the bounded attempt loop, and either
reports success or throws the terminal failure built from the last
attempt error (`unknown error` when no attempt ran). -/
def connect (cfg : ConnectConfig)
    (attemptBehavior : Nat → Nat × Except String Unit) : ConnectTrace :=
  let maxAttempts := cfg.maxReconnectAttempts.getD 5
  let reconnectDelay := cfg.reconnectDelay.getD 5000
  let r := connectGo (racedOutcome cfg attemptBehavior) 1 maxAttempts
  if r.connected then ⟨.ok (), r.attemptsUsed, r.sleeps, reconnectDelay⟩
  else
    ⟨.error (connectFailMsg maxAttempts (r.lastError.getD "unknown error")),
      r.attemptsUsed, r.sleeps, reconnectDelay⟩

end Root

/-! ## Root App provider (src/providers/root/app-provider.ts) -/

namespace RootApp

/-- One native `@rootsdk/client-app` call recorded in a trace. -/
inductive RootAppCall where
  | getUserProfile (userId : String)
deriving Repr, DecidableEq

/-- A Root user profile as returned by `users.getUserProfile`. -/
structure UserProfile where
  id : String
  nickname : String
  profilePictureUri : Option String
deriving Repr, DecidableEq

/-- The generic `User` entity (src/types/common.ts fields used here). -/
structure GenUser where
  id : String
  username : String
  displayName : String
  avatarUrl : Option String
  bot : Bool
  platform : String
deriving Repr, DecidableEq

/-- Message of the `sendMessage` stub rejection. -/
def sendMessageStubMsg : String :=
  "sendMessage is not supported in Root Apps. Use Root Bot (platform: \x22root\x22) for messaging."

/-- Message of the `editMessage` stub rejection. -/
def editMessageStubMsg : String :=
  "editMessage is not supported in Root Apps. Use Root Bot (platform: \x22root\x22) for messaging."

/-- Message of the `deleteMessage` stub rejection. -/
def deleteMessageStubMsg : String :=
  "deleteMessage is not supported in Root Apps. Use Root Bot (platform: \x22root\x22) for messaging."

/-- Message of the `getChannel` stub rejection. -/
def getChannelStubMsg : String :=
  "getChannel is not supported in Root Apps. Use Root Bot (platform: \x22root\x22) for channel operations."

/-- Message of the `getGuild` stub rejection. -/
def getGuildStubMsg : String :=
  "getGuild is not supported in Root Apps. Use Root Bot (platform: \x22root\x22) for community operations."

/-- `RootAppProvider.sendMessage`: throws unconditionally (no connection
check, no native call).  The connection state is never consulted by any
of the stub methods, so they take no connection argument. -/
def sendMessage (_channelId : String) (_options : Sum String MessageOptions) :
    Except String Unit × List RootAppCall :=
  (.error sendMessageStubMsg, [])

/-- `RootAppProvider.editMessage`: throws unconditionally. -/
def editMessage (_messageId _channelId _content : String) :
    Except String Unit × List RootAppCall :=
  (.error editMessageStubMsg, [])

/-- `RootAppProvider.deleteMessage`: throws unconditionally. -/
def deleteMessage (_messageId _channelId : String) :
    Except String Unit × List RootAppCall :=
  (.error deleteMessageStubMsg, [])

/-- `RootAppProvider.getChannel`: throws unconditionally. -/
def getChannel (_channelId : String) : Except String Unit × List RootAppCall :=
  (.error getChannelStubMsg, [])

/-- `RootAppProvider.getGuild`: throws unconditionally. -/
def getGuild (_guildId : String) : Except String Unit × List RootAppCall :=
  (.error getGuildStubMsg, [])

/-- `RootAppProvider.getUser`: fetches the profile from the native client
(no connection check in the source) and builds a generic user;
`profile.nickname || profile.id` and the avatar ternary follow JS
truthiness. -/
def getUser (sdkGetUserProfile : String → Except String UserProfile)
    (toImageUrl : String → String) (userId : String) :
    Except String GenUser × List RootAppCall :=
  match sdkGetUserProfile userId with
  | .error e => (.error e, [.getUserProfile userId])
  | .ok p =>
    (.ok { id := p.id
           username := if p.nickname ≠ "" then p.nickname else p.id
           displayName := p.nickname
           avatarUrl := match p.profilePictureUri with
             | some uri => if uri ≠ "" then some (toImageUrl uri) else none
             | none => none
           bot := false
           platform := "root-app" }, [.getUserProfile userId])

/-- The emission performed by the `theme.update` listener installed in
`RootAppProvider.setupEventListeners`: a `themeChange` generic event. -/
def themeUpdateEmissions (theme : String) : List (String × String) :=
  [("themeChange", theme)]

end RootApp

/-! ## Discord provider operations (src/providers/discord/provider.ts) -/

namespace Discord

/-- The shape of a fetched native channel that the provider checks. -/
structure NativeChannel where
  isTextBased : Bool
  hasSend : Bool
deriving Repr, DecidableEq

/-- One native discord.js call recorded in a trace. -/
inductive DiscordCall where
  | fetchChannel (channelId : String)
  | sendStr (channelId content : String)
  | send (channelId : String) (opts : MessageCreateOptions)
  | fetchMessage (channelId messageId : String)
  | editNative (channelId messageId content : String)
  | deleteNative (channelId messageId : String)
  | fetchUser (userId : String)
  | fetchGuild (guildId : String)
deriving Repr, DecidableEq

/-- Oracle for the native discord.js client.  `fetchChannel` may reject
(`.error`), resolve to no channel (`.ok none`) or resolve to a channel;
other natives are abstracted to `Unit` results, their conversion being
the converter claims' subject. -/
structure DiscordSdk where
  fetchChannel : String → Except String (Option NativeChannel)
  sendStr : String → String → Except String Unit
  send : String → MessageCreateOptions → Except String Unit
  fetchMessage : String → String → Except String Unit
  editNative : String → String → String → Except String Unit
  deleteNative : String → String → Except String Unit
  fetchUser : String → Except String Unit
  fetchGuild : String → Except String Unit

/-- `DiscordProvider.sendMessage`: connect-guard, channel fetch,
text-based and `send`-capability checks (`ChannelError` texts rethrown
as-is), then the native send, everything else wrapped as
`Failed to send message: ...`. -/
def sendMessage (connected : Bool) (sdk : DiscordSdk) (channelId : String)
    (options : Sum String MessageOptions) : Except String Unit × List DiscordCall :=
  if !connected then (.error (notConnectedMsg "discord"), [])
  else
    match sdk.fetchChannel channelId with
    | .error e => (.error ("Failed to send message: " ++ e), [.fetchChannel channelId])
    | .ok none =>
      (.error "Channel is not text-based or does not exist", [.fetchChannel channelId])
    | .ok (some ch) =>
      if !ch.isTextBased then
        (.error "Channel is not text-based or does not exist", [.fetchChannel channelId])
      else if !ch.hasSend then
        (.error "Channel does not support sending messages", [.fetchChannel channelId])
      else
        match options with
        | .inl str =>
          match sdk.sendStr channelId str with
          | .error e =>
            (.error ("Failed to send message: " ++ e),
              [.fetchChannel channelId, .sendStr channelId str])
          | .ok _ => (.ok (), [.fetchChannel channelId, .sendStr channelId str])
        | .inr o =>
          let dopts := toDiscordMessageOptions o
          match sdk.send channelId dopts with
          | .error e =>
            (.error ("Failed to send message: " ++ e),
              [.fetchChannel channelId, .send channelId dopts])
          | .ok _ => (.ok (), [.fetchChannel channelId, .send channelId dopts])

/-- `DiscordProvider.editMessage`: connect-guard, channel fetch and
text-based check, message fetch, native edit; non-channel errors wrapped
as `Failed to edit message: ...`. -/
def editMessage (connected : Bool) (sdk : DiscordSdk)
    (messageId channelId content : String) : Except String Unit × List DiscordCall :=
  if !connected then (.error (notConnectedMsg "discord"), [])
  else
    match sdk.fetchChannel channelId with
    | .error e => (.error ("Failed to edit message: " ++ e), [.fetchChannel channelId])
    | .ok none =>
      (.error "Channel is not text-based or does not exist", [.fetchChannel channelId])
    | .ok (some ch) =>
      if !ch.isTextBased then
        (.error "Channel is not text-based or does not exist", [.fetchChannel channelId])
      else
        match sdk.fetchMessage channelId messageId with
        | .error e =>
          (.error ("Failed to edit message: " ++ e),
            [.fetchChannel channelId, .fetchMessage channelId messageId])
        | .ok _ =>
          match sdk.editNative channelId messageId content with
          | .error e =>
            (.error ("Failed to edit message: " ++ e),
              [.fetchChannel channelId, .fetchMessage channelId messageId,
                .editNative channelId messageId content])
          | .ok _ =>
            (.ok (),
              [.fetchChannel channelId, .fetchMessage channelId messageId,
                .editNative channelId messageId content])

/-- `DiscordProvider.deleteMessage`: same pattern as `editMessage` with
the `Failed to delete message: ...` wrapper. -/
def deleteMessage (connected : Bool) (sdk : DiscordSdk)
    (messageId channelId : String) : Except String Unit × List DiscordCall :=
  if !connected then (.error (notConnectedMsg "discord"), [])
  else
    match sdk.fetchChannel channelId with
    | .error e => (.error ("Failed to delete message: " ++ e), [.fetchChannel channelId])
    | .ok none =>
      (.error "Channel is not text-based or does not exist", [.fetchChannel channelId])
    | .ok (some ch) =>
      if !ch.isTextBased then
        (.error "Channel is not text-based or does not exist", [.fetchChannel channelId])
      else
        match sdk.fetchMessage channelId messageId with
        | .error e =>
          (.error ("Failed to delete message: " ++ e),
            [.fetchChannel channelId, .fetchMessage channelId messageId])
        | .ok _ =>
          match sdk.deleteNative channelId messageId with
          | .error e =>
            (.error ("Failed to delete message: " ++ e),
              [.fetchChannel channelId, .fetchMessage channelId messageId,
                .deleteNative channelId messageId])
          | .ok _ =>
            (.ok (),
              [.fetchChannel channelId, .fetchMessage channelId messageId,
                .deleteNative channelId messageId])

/-- `DiscordProvider.getUser`: connect-guard, then the user fetch; any
rejection becomes `ResourceNotFoundError("User", userId)`. -/
def getUser (connected : Bool) (sdk : DiscordSdk) (userId : String) :
    Except String Unit × List DiscordCall :=
  if !connected then (.error (notConnectedMsg "discord"), [])
  else
    match sdk.fetchUser userId with
    | .error _ => (.error (resourceNotFoundMsg "User" userId), [.fetchUser userId])
    | .ok _ => (.ok (), [.fetchUser userId])

/-- `DiscordProvider.getChannel`: connect-guard, then the channel fetch; a
rejection or a null channel becomes `ResourceNotFoundError("Channel", id)`. -/
def getChannel (connected : Bool) (sdk : DiscordSdk) (channelId : String) :
    Except String Unit × List DiscordCall :=
  if !connected then (.error (notConnectedMsg "discord"), [])
  else
    match sdk.fetchChannel channelId with
    | .ok (some _) => (.ok (), [.fetchChannel channelId])
    | _ => (.error (resourceNotFoundMsg "Channel" channelId), [.fetchChannel channelId])

/-- `DiscordProvider.getGuild`: connect-guard, then the guild fetch; any
rejection becomes `ResourceNotFoundError("Guild", guildId)`. -/
def getGuild (connected : Bool) (sdk : DiscordSdk) (guildId : String) :
    Except String Unit × List DiscordCall :=
  if !connected then (.error (notConnectedMsg "discord"), [])
  else
    match sdk.fetchGuild guildId with
    | .error _ => (.error (resourceNotFoundMsg "Guild" guildId), [.fetchGuild guildId])
    | .ok _ => (.ok (), [.fetchGuild guildId])

/-! ### Event-listener conversion isolation
(`DiscordProvider.setupEventListeners` lines 81-108 and
`BaseProvider.handleError` lines 164-168) -/

/-- What a listener emits for one event: the converted generic event, or
the generic `error` event that `handleError` emits when conversion
throws. -/
inductive ListenerEmission (μ : Type) where
  | message (m : μ)
  | errorEvent (e : String)
deriving Repr, DecidableEq

/-- The `MessageCreate` listener body (the shared shape of every listener
in `setupEventListeners`): convert inside `try`, emit the generic event;
on a conversion error, `handleError` emits the `error` event instead.
The function is total: no outcome escapes the listener. -/
def onMessageCreate {ν μ : Type} (convertMessage : ν → Except String μ)
    (nativeMsg : ν) : List (ListenerEmission μ) :=
  match convertMessage nativeMsg with
  | .ok m => [.message m]
  | .error e => [.errorEvent e]

/-- Delivery of a stream of native events to the (still installed)
listener: each event is handled independently, in order. -/
def processMessageCreateStream {ν μ : Type} (convertMessage : ν → Except String μ)
    (msgs : List ν) : List (ListenerEmission μ) :=
  msgs.flatMap (onMessageCreate convertMessage)

end Discord

/-! ## Unified client (src/client.ts) -/

namespace Client

/-- The three provider kinds `createProvider` can instantiate. -/
inductive ProviderKind where
  | discord
  | root
  | rootApp
deriving Repr, DecidableEq

/-- JS `platform.toLowerCase()` on the ASCII identifiers in use, modelled
character by character. -/
def jsToLowerCase (s : String) : String := String.mk (s.data.map Char.toLower)

/-- `UnifiedClient.createProvider`: a switch on the lowercased platform
identifier; the default branch throws `UnsupportedPlatformError` naming
the original identifier.  It runs synchronously inside the constructor,
before `connect` can be called. -/
def createProvider (platform : String) : Except String ProviderKind :=
  if jsToLowerCase platform = "discord" then .ok .discord
  else if jsToLowerCase platform = "root" then .ok .root
  else if jsToLowerCase platform = "root-app" then .ok .rootApp
  else .error (platformNotSupportedMsg platform)

/-- The fixed event list `setupEventForwarding` installs forwarders for. -/
def forwardedEvents : List String :=
  ["ready", "message", "messageUpdate", "messageDelete", "typingStart",
   "userUpdate", "channelCreate", "channelUpdate", "channelDelete",
   "guildCreate", "guildUpdate", "guildDelete", "guildMemberAdd",
   "guildMemberRemove", "guildMemberUpdate", "error", "debug"]

/-- What the client re-emits when the provider emits one event: the same
name and arguments, but only if a forwarder was installed for the name. -/
def clientForward {α : Type} (ev : String × α) : List (String × α) :=
  if forwardedEvents.contains ev.1 then [ev] else []

/-- The client emissions caused by a sequence of provider emissions. -/
def clientEmissions {α : Type} (evs : List (String × α)) : List (String × α) :=
  evs.flatMap clientForward

/-- Modelled from the spec: the forwarding the spec describes, a pure
pass-through of every provider event verbatim. -/
def specForwardAllEvents {α : Type} (evs : List (String × α)) : List (String × α) :=
  evs

end Client

/-- Value of a list of hex digit characters, most significant first. -/
def hexVal (l : List Char) : Nat := l.foldl (fun a c => 16 * a + hexCharVal c) 0

end Bridge
namespace Bridge

theorem hexCharVal_hexDigitChar {d : Nat} (hd : d < 16) :
    hexCharVal (hexDigitChar d) = d := by
  interval_cases d <;> decide

theorem isHexDigitChar_hexDigitChar {d : Nat} (hd : d < 16) :
    isHexDigitChar (hexDigitChar d) = true := by
  interval_cases d <;> decide

theorem parseHexAux_all_digits (l : List Char) (acc : Nat)
    (h : ∀ c ∈ l, isHexDigitChar c) :
    parseHexAux l acc = l.foldl (fun a c => 16 * a + hexCharVal c) acc := by
  induction l generalizing acc with
  | nil => rfl
  | cons c cs ih =>
    have hc : isHexDigitChar c := h c (List.mem_cons_self ..)
    simp only [isHexDigitChar, Option.isSome] at hc
    simp only [parseHexAux, List.foldl_cons]
    cases hv : hexCharVal? c with
    | none => rw [hv] at hc; simp at hc
    | some d =>
      have hval : hexCharVal c = d := by simp [hexCharVal, hv]
      simp only [hval]
      exact ih _ (fun c hc => h c (List.mem_cons_of_mem _ hc))

theorem jsParseIntHex_of_digits (l : List Char) (hne : l ≠ [])
    (h : ∀ c ∈ l, isHexDigitChar c) :
    jsParseIntHex (String.mk l) = some (hexVal l) := by
  cases l with
  | nil => exact absurd rfl hne
  | cons c cs =>
    have hc : isHexDigitChar c := h c (List.mem_cons_self ..)
    simp only [jsParseIntHex, hc, if_true, hexVal]
    rw [parseHexAux_all_digits _ _ h]

theorem removeFirstHash_of_digits (l : List Char)
    (h : ∀ c ∈ l, isHexDigitChar c) : removeFirstHash l = l := by
  induction l with
  | nil => rfl
  | cons c cs ih =>
    have hc : isHexDigitChar c := h c (List.mem_cons_self ..)
    have : c ≠ '#' := by rintro rfl; simp [isHexDigitChar, hexCharVal?] at hc
    simp only [removeFirstHash, if_neg this]
    rw [ih (fun c hc => h c (List.mem_cons_of_mem _ hc))]

theorem hexFoldl_map_reverse (L : List Nat) (a : Nat) (h : ∀ d ∈ L, d < 16) :
    List.foldl (fun x c => 16 * x + hexCharVal c) a ((L.map hexDigitChar).reverse)
      = a * 16 ^ L.length + Nat.ofDigits 16 L := by
  induction L generalizing a with
  | nil => simp [Nat.ofDigits]
  | cons d L ih =>
    simp only [List.map_cons, List.reverse_cons, List.foldl_append, List.foldl_cons,
      List.foldl_nil]
    rw [ih _ (fun x hx => h x (List.mem_cons_of_mem _ hx))]
    rw [hexCharVal_hexDigitChar (h d (List.mem_cons_self ..))]
    rw [Nat.ofDigits_cons, List.length_cons]
    ring

theorem hexVal_digits (n : Nat) :
    hexVal (((Nat.digits 16 n).map hexDigitChar).reverse) = n := by
  unfold hexVal
  rw [hexFoldl_map_reverse _ _ (fun d hd => Nat.digits_lt_base (by norm_num) hd)]
  simp [Nat.ofDigits_digits]

theorem hexVal_replicate_zero_append (k : Nat) (l : List Char) :
    hexVal (List.replicate k '0' ++ l) = hexVal l := by
  unfold hexVal
  rw [List.foldl_append]
  congr 1
  induction k with
  | zero => rfl
  | succ k ih => simpa [List.replicate_succ, hexCharVal, hexCharVal?] using ih

theorem jsToStringHex_digits (n : Nat) :
    (∀ c ∈ (jsToStringHex n).data, isHexDigitChar c) ∧ (jsToStringHex n).data ≠ [] ∧
      hexVal (jsToStringHex n).data = n := by
  unfold jsToStringHex
  by_cases h0 : n = 0
  · subst h0; refine ⟨?_, by decide, by decide⟩
    intro c hc; simp at hc; subst hc; decide
  · rw [if_neg h0]
    refine ⟨?_, ?_, hexVal_digits n⟩
    · intro c hc
      simp only [String.data] at hc
      rw [List.mem_reverse, List.mem_map] at hc
      obtain ⟨d, hd, rfl⟩ := hc
      exact isHexDigitChar_hexDigitChar (Nat.digits_lt_base (by norm_num) hd)
    · simp only [String.data, ne_eq, List.reverse_eq_nil_iff, List.map_eq_nil_iff]
      exact Nat.digits_ne_nil_iff_ne_zero.mpr h0

theorem padStart6_data (s : String) :
    (padStart6 s).data = List.replicate (6 - s.length) '0' ++ s.data := by
  unfold padStart6
  by_cases h : s.length < 6
  · rw [if_pos h]
    exact String.data_append _ _
  · rw [if_neg h]
    have : 6 - s.length = 0 := by omega
    rw [this, List.replicate_zero, List.nil_append]

theorem padStart6_hexVal (s : String) :
    hexVal (padStart6 s).data = hexVal s.data := by
  rw [padStart6_data, hexVal_replicate_zero_append]

theorem padStart6_digits (s : String) (h : ∀ c ∈ s.data, isHexDigitChar c) :
    ∀ c ∈ (padStart6 s).data, isHexDigitChar c := by
  rw [padStart6_data]
  intro c hc
  rcases List.mem_append.mp hc with hc | hc
  · rw [List.eq_of_mem_replicate hc]; decide
  · exact h c hc

theorem padStart6_ne_nil (s : String) (h : s.data ≠ []) :
    (padStart6 s).data ≠ [] := by
  rw [padStart6_data]
  simp [h]

theorem normalizeColor_hexString_roundtrip (n : Nat) :
    normalizeColor (.str (normalizeColorToHex (.num n))) = some n := by
  have hd := jsToStringHex_digits n
  have hstr : normalizeColorToHex (.num n) = "#" ++ padStart6 (jsToStringHex n) := rfl
  rw [hstr]
  show jsParseIntHex (String.mk (removeFirstHash ("#" ++ padStart6 (jsToStringHex n)).data))
    = some n
  rw [String.data_append]
  have hhash : ("#" : String).data = ['#'] := rfl
  rw [hhash]
  have hrm : removeFirstHash ('#' :: (padStart6 (jsToStringHex n)).data)
      = (padStart6 (jsToStringHex n)).data := by
    simp [removeFirstHash]
  rw [List.cons_append, List.nil_append, hrm]
  rw [jsParseIntHex_of_digits _ (padStart6_ne_nil _ hd.2.1) (padStart6_digits _ hd.1)]
  rw [padStart6_hexVal, hd.2.2]

/-- C4: a color given as a hash-prefixed hex string, a bare hex string, or
the equivalent integer normalizes to the same internal integer under
`normalizeColor`, and rendering an integer with `normalizeColorToHex` and
parsing it back with `normalizeColor` recovers the integer. -/
theorem claim_C4_color_roundtrip (l : List Char) (hne : l ≠ [])
    (hdig : ∀ c ∈ l, isHexDigitChar c) :
    normalizeColor (.str (String.mk ('#' :: l))) = some (hexVal l)
    ∧ normalizeColor (.str (String.mk l)) = some (hexVal l)
    ∧ normalizeColor (.num (hexVal l)) = some (hexVal l)
    ∧ (∀ n : Nat, normalizeColor (.str (normalizeColorToHex (.num n))) = some n) := by
  refine ⟨?_, ?_, rfl, normalizeColor_hexString_roundtrip⟩
  · show jsParseIntHex (String.mk (removeFirstHash ('#' :: l))) = some (hexVal l)
    have hrm : removeFirstHash ('#' :: l) = l := by simp [removeFirstHash]
    rw [hrm, jsParseIntHex_of_digits l hne hdig]
  · show jsParseIntHex (String.mk (removeFirstHash l)) = some (hexVal l)
    rw [removeFirstHash_of_digits l hdig, jsParseIntHex_of_digits l hne hdig]

/-- Witness for C4 at the spec example color red. -/
theorem claim_C4_color_roundtrip_witness :
    normalizeColor (.str (String.mk ('#' :: ['f','f','0','0','0','0'])))
      = some (hexVal ['f','f','0','0','0','0'])
    ∧ normalizeColor (.str (String.mk ['f','f','0','0','0','0']))
      = some (hexVal ['f','f','0','0','0','0'])
    ∧ normalizeColor (.num (hexVal ['f','f','0','0','0','0']))
      = some (hexVal ['f','f','0','0','0','0'])
    ∧ normalizeColor (.str (normalizeColorToHex (.num 16711680))) = some 16711680 := by
  have h := claim_C4_color_roundtrip ['f','f','0','0','0','0'] (by decide) (by decide)
  exact ⟨h.1, h.2.1, h.2.2.1, h.2.2.2 16711680⟩

end Bridge

namespace Bridge

/-- C5 counterexample: the claim fails as stated.  The generic embed whose
color is the integer 0 (black) loses its color on the Discord round trip,
because `0` is falsy in JS and `if (discordEmbed.color)` drops it. -/
theorem claim_C5_embed_roundtrip_counterexample :
    (Discord.toGenericEmbed (Discord.toDiscordEmbed { color := some (.num 0) })).color = none
    ∧ ({ color := some (.num 0) } : Embed).color = some (.num 0) := by
  exact ⟨rfl, rfl⟩

/-- C5 (amended): for a generic embed whose present title, description and
url are non-empty, whose field list (when present) is non-empty, and whose
color (when present) is truthy and normalizes to a non-zero integer,
converting to Discord native form and back preserves title, description,
url, fields (name/value/inline), footer text and icon, image and thumbnail
URLs, author name/icon/url and timestamp, and preserves the color up to
normalization to its integer form. -/
theorem claim_C5_embed_roundtrip (e : Embed)
    (htitle : e.title ≠ some "")
    (hdesc : e.description ≠ some "")
    (hurl : e.url ≠ some "")
    (hcolor : ∀ c, e.color = some c → Discord.colorSurvives c)
    (hfields : e.fields ≠ some []) :
    let rt := Discord.toGenericEmbed (Discord.toDiscordEmbed e)
    rt.title = e.title
    ∧ rt.description = e.description
    ∧ rt.url = e.url
    ∧ rt.color = (e.color.bind Discord.embedColorToNum).map ColorValue.num
    ∧ rt.fields = e.fields
    ∧ rt.footer = e.footer
    ∧ (rt.image.map fun i => i.url) = (e.image.map fun i => i.url)
    ∧ (rt.thumbnail.map fun i => i.url) = (e.thumbnail.map fun i => i.url)
    ∧ rt.author = e.author
    ∧ rt.timestamp = e.timestamp := by
  refine ⟨?_, ?_, ?_, ?_, ?_, ?_, ?_, ?_, ?_, ?_⟩
  · cases ht : e.title with
    | none => simp [Discord.toGenericEmbed, Discord.toDiscordEmbed, ht, strTruthy]
    | some t =>
      have : t ≠ "" := fun h => htitle (by rw [ht, h])
      simp [Discord.toGenericEmbed, Discord.toDiscordEmbed, ht, strTruthy, this]
  · cases ht : e.description with
    | none => simp [Discord.toGenericEmbed, Discord.toDiscordEmbed, ht, strTruthy]
    | some t =>
      have : t ≠ "" := fun h => hdesc (by rw [ht, h])
      simp [Discord.toGenericEmbed, Discord.toDiscordEmbed, ht, strTruthy, this]
  · cases ht : e.url with
    | none => simp [Discord.toGenericEmbed, Discord.toDiscordEmbed, ht, strTruthy]
    | some t =>
      have : t ≠ "" := fun h => hurl (by rw [ht, h])
      simp [Discord.toGenericEmbed, Discord.toDiscordEmbed, ht, strTruthy, this]
  · cases hc : e.color with
    | none => simp [Discord.toGenericEmbed, Discord.toDiscordEmbed, hc]
    | some c =>
      obtain ⟨hne, hnn, hnz⟩ := hcolor c hc
      cases c with
      | num n =>
        have hn0 : n ≠ 0 := by
          intro h; exact hnz (by simp [Discord.embedColorToNum, normalizeColor, h])
        simp [Discord.toGenericEmbed, Discord.toDiscordEmbed, hc, hn0,
          Discord.embedColorToNum, normalizeColor]
      | str t =>
        have ht : t ≠ "" := fun h => hne (by rw [h])
        cases hv : Discord.embedColorToNum (.str t) with
        | none => exact absurd hv hnn
        | some v =>
          have hv0 : v ≠ 0 := fun h => hnz (by rw [hv, h])
          simp [Discord.toGenericEmbed, Discord.toDiscordEmbed, hc, ht, hv, hv0]
  · cases hf : e.fields with
    | none => simp [Discord.toGenericEmbed, Discord.toDiscordEmbed, hf]
    | some l =>
      have hl : l ≠ [] := fun h => hfields (by rw [hf, h])
      have hlen : l.length > 0 := List.length_pos.mpr hl
      simp [Discord.toGenericEmbed, Discord.toDiscordEmbed, hf, hlen]
  · cases hf : e.footer with
    | none => simp [Discord.toGenericEmbed, Discord.toDiscordEmbed, hf]
    | some f => simp [Discord.toGenericEmbed, Discord.toDiscordEmbed, hf]
  · cases hf : e.image with
    | none => simp [Discord.toGenericEmbed, Discord.toDiscordEmbed, hf]
    | some f => simp [Discord.toGenericEmbed, Discord.toDiscordEmbed, hf]
  · cases hf : e.thumbnail with
    | none => simp [Discord.toGenericEmbed, Discord.toDiscordEmbed, hf]
    | some f => simp [Discord.toGenericEmbed, Discord.toDiscordEmbed, hf]
  · cases hf : e.author with
    | none => simp [Discord.toGenericEmbed, Discord.toDiscordEmbed, hf]
    | some f => simp [Discord.toGenericEmbed, Discord.toDiscordEmbed, hf]
  · simp [Discord.toGenericEmbed, Discord.toDiscordEmbed]


/-- Witness for the amended C5 at a fully populated embed. -/
theorem claim_C5_embed_roundtrip_witness :
    (Discord.toGenericEmbed (Discord.toDiscordEmbed Discord.sampleEmbed)).title
        = Discord.sampleEmbed.title
    ∧ (Discord.toGenericEmbed (Discord.toDiscordEmbed Discord.sampleEmbed)).description
        = Discord.sampleEmbed.description
    ∧ (Discord.toGenericEmbed (Discord.toDiscordEmbed Discord.sampleEmbed)).url
        = Discord.sampleEmbed.url
    ∧ (Discord.toGenericEmbed (Discord.toDiscordEmbed Discord.sampleEmbed)).color
        = (Discord.sampleEmbed.color.bind Discord.embedColorToNum).map ColorValue.num
    ∧ (Discord.toGenericEmbed (Discord.toDiscordEmbed Discord.sampleEmbed)).fields
        = Discord.sampleEmbed.fields
    ∧ (Discord.toGenericEmbed (Discord.toDiscordEmbed Discord.sampleEmbed)).footer
        = Discord.sampleEmbed.footer
    ∧ ((Discord.toGenericEmbed (Discord.toDiscordEmbed Discord.sampleEmbed)).image.map
        fun i => i.url) = (Discord.sampleEmbed.image.map fun i => i.url)
    ∧ ((Discord.toGenericEmbed (Discord.toDiscordEmbed Discord.sampleEmbed)).thumbnail.map
        fun i => i.url) = (Discord.sampleEmbed.thumbnail.map fun i => i.url)
    ∧ (Discord.toGenericEmbed (Discord.toDiscordEmbed Discord.sampleEmbed)).author
        = Discord.sampleEmbed.author
    ∧ (Discord.toGenericEmbed (Discord.toDiscordEmbed Discord.sampleEmbed)).timestamp
        = Discord.sampleEmbed.timestamp := by
  exact claim_C5_embed_roundtrip Discord.sampleEmbed (by decide) (by decide) (by decide)
    (by intro c hc; cases hc; decide) (by decide)

end Bridge
namespace Bridge

/-- C1: a generic options bag with a non-empty embeds list or a non-empty
files list is rejected by `toRootMessageOptions` with the fixed message
naming the unsupported feature (file attachments are checked first), and
no native options object is ever returned for such a bag. -/
theorem claim_C1_unsupported_feature_rejection (o : MessageOptions)
    (h : (o.embeds.getD []) ≠ [] ∨ (o.files.getD []) ≠ []) :
    ((o.files.getD []) ≠ [] →
      Root.toRootMessageOptions o = .error Root.filesUnsupportedMsg)
    ∧ ((o.files.getD []) = [] →
      Root.toRootMessageOptions o = .error Root.embedsUnsupportedMsg)
    ∧ ∀ r, Root.toRootMessageOptions o ≠ .ok r := by
  refine ⟨?_, ?_, ?_⟩
  · intro hf
    have hl : (o.files.getD []).length > 0 := List.length_pos.mpr hf
    simp [Root.toRootMessageOptions, hl]
  · intro hfe
    have he : (o.embeds.getD []) ≠ [] := by
      rcases h with h | h
      · exact h
      · exact absurd hfe h
    have h1 : ¬((o.files.getD []).length > 0) := by rw [hfe]; simp
    have h2 : (o.embeds.getD []).length > 0 := List.length_pos.mpr he
    simp [Root.toRootMessageOptions, h1, h2]
  · intro r hr
    by_cases hfl : (o.files.getD []).length > 0
    · simp [Root.toRootMessageOptions, hfl] at hr
    · have hfe : (o.files.getD []) = [] := by
        rcases List.eq_nil_or_concat (o.files.getD []) with h0 | ⟨l, a, h0⟩
        · exact h0
        · exact absurd (by rw [h0]; simp) hfl
      have he : (o.embeds.getD []) ≠ [] := by
        rcases h with h | h
        · exact h
        · exact absurd hfe h
      have h2 : (o.embeds.getD []).length > 0 := List.length_pos.mpr he
      simp [Root.toRootMessageOptions, hfl, h2] at hr

/-- Witness for C1: an options bag with one (empty) embed is rejected with
the embeds message; one with one file is rejected with the files message. -/
theorem claim_C1_unsupported_feature_rejection_witness :
    Root.toRootMessageOptions { embeds := some [{}] }
      = .error Root.embedsUnsupportedMsg
    ∧ Root.toRootMessageOptions
        { files := some [{ name := "f", dataLen := 3, description := none }] }
      = .error Root.filesUnsupportedMsg := by
  refine ⟨?_, ?_⟩
  · exact (claim_C1_unsupported_feature_rejection { embeds := some [{}] }
      (Or.inl (by decide))).2.1 (by decide)
  · exact (claim_C1_unsupported_feature_rejection
      { files := some [{ name := "f", dataLen := 3, description := none }] }
      (Or.inr (by decide))).1 (by decide)

/-- C10: a connected `RootProvider.sendMessage` call whose coerced options
convert to native options without a truthy content field throws
`Message content is required` and performs no native create call. -/
theorem claim_C10_content_required (sdk : Root.RootSdk) (channelId : String)
    (options : Sum String MessageOptions)
    (hfiles : ((Root.coerceOptions options).files.getD []) = [])
    (hembeds : ((Root.coerceOptions options).embeds.getD []) = [])
    (hcontent : strTruthy (Root.coerceOptions options).content = false) :
    Root.sendMessage true sdk channelId options
      = (.error "Message content is required", []) := by
  have h1 : ¬(((Root.coerceOptions options).files.getD []).length > 0) := by
    rw [hfiles]; simp
  have h2 : ¬(((Root.coerceOptions options).embeds.getD []).length > 0) := by
    rw [hembeds]; simp
  cases hco : (Root.coerceOptions options).content with
  | none => simp [Root.sendMessage, Root.toRootMessageOptions, h1, h2, hco, strTruthy]
  | some str =>
    have hs : str = "" := by
      rw [hco] at hcontent
      simpa [strTruthy] using hcontent
    subst hs
    simp [Root.sendMessage, Root.toRootMessageOptions, h1, h2, hco, strTruthy]

/-- Witness for C10: sending the empty string. -/
theorem claim_C10_content_required_witness :
    Root.sendMessage true Root.trivialSdk "chan-1" (.inl "")
      = (.error "Message content is required", []) :=
  claim_C10_content_required Root.trivialSdk "chan-1" (.inl "") (by decide) (by decide)
    (by decide)

end Bridge
namespace Bridge

/-- C2 counterexample: the claim fails as stated on the Root App provider,
whose `getUser` never consults the connection state: called while
disconnected with a resolving native client, it performs the native
profile fetch and resolves, instead of raising a not-connected failure
with no native call. -/
theorem claim_C2_not_connected_guard_counterexample :
    RootApp.getUser
      (fun _ => .ok { id := "u1", nickname := "Nick", profilePictureUri := none })
      (fun u => u) "u1"
    = (.ok { id := "u1", username := "Nick", displayName := "Nick",
             avatarUrl := none, bot := false, platform := "root-app" },
       [RootApp.RootAppCall.getUserProfile "u1"]) := rfl

/-- C2 (amended): on the Discord and Root providers every one of the six
operations, invoked while disconnected, fails with the not-connected
message and performs no native call; on the Root App provider the
messaging and channel/guild operations fail with their fixed
`not supported` messages without any native call (they never consult the
connection state), while `getUser` always performs the native profile
fetch, with no connection guard. -/
theorem claim_C2_not_connected_guard_amended :
    (∀ (sdk : Discord.DiscordSdk) (cid mid uid gid content : String)
       (o : Sum String MessageOptions),
      Discord.sendMessage false sdk cid o = (.error (notConnectedMsg "discord"), [])
      ∧ Discord.editMessage false sdk mid cid content
          = (.error (notConnectedMsg "discord"), [])
      ∧ Discord.deleteMessage false sdk mid cid = (.error (notConnectedMsg "discord"), [])
      ∧ Discord.getUser false sdk uid = (.error (notConnectedMsg "discord"), [])
      ∧ Discord.getChannel false sdk cid = (.error (notConnectedMsg "discord"), [])
      ∧ Discord.getGuild false sdk gid = (.error (notConnectedMsg "discord"), []))
    ∧ (∀ (sdk : Root.RootSdk) (cid mid uid gid content : String)
       (o : Sum String MessageOptions),
      Root.sendMessage false sdk cid o = (.error (notConnectedMsg "root"), [])
      ∧ Root.editMessage false sdk mid cid content = (.error (notConnectedMsg "root"), [])
      ∧ Root.deleteMessage false sdk mid cid = (.error (notConnectedMsg "root"), [])
      ∧ Root.getUser false sdk uid = (.error (notConnectedMsg "root"), [])
      ∧ Root.getChannel false sdk cid = (.error (notConnectedMsg "root"), [])
      ∧ Root.getGuild false sdk gid = (.error (notConnectedMsg "root"), []))
    ∧ (∀ (cid mid gid content : String) (o : Sum String MessageOptions),
      RootApp.sendMessage cid o = (.error RootApp.sendMessageStubMsg, [])
      ∧ RootApp.editMessage mid cid content = (.error RootApp.editMessageStubMsg, [])
      ∧ RootApp.deleteMessage mid cid = (.error RootApp.deleteMessageStubMsg, [])
      ∧ RootApp.getChannel cid = (.error RootApp.getChannelStubMsg, [])
      ∧ RootApp.getGuild gid = (.error RootApp.getGuildStubMsg, []))
    ∧ (∀ (sdkp : String → Except String RootApp.UserProfile)
       (im : String → String) (uid : String),
      (RootApp.getUser sdkp im uid).2 = [RootApp.RootAppCall.getUserProfile uid]) := by
  refine ⟨?_, ?_, ?_, ?_⟩
  · intro sdk cid mid uid gid content o
    exact ⟨rfl, rfl, rfl, rfl, rfl, rfl⟩
  · intro sdk cid mid uid gid content o
    exact ⟨rfl, rfl, rfl, rfl, rfl, rfl⟩
  · intro cid mid gid content o
    exact ⟨rfl, rfl, rfl, rfl, rfl⟩
  · intro sdkp im uid
    cases h : sdkp uid <;> simp [RootApp.getUser, h]

/-- C6 counterexample: the claim fails as stated because the Root App
provider's `getUser` is a real implementation, not a not-found stub: with
a resolving native client it resolves to a generic user (exercising the
`nickname || id` fallback and the avatar conversion) instead of rejecting
with a resource-not-found failure. -/
theorem claim_C6_stub_provider_counterexample :
    RootApp.getUser
      (fun _ => .ok { id := "u2", nickname := "", profilePictureUri := some "pic" })
      (fun u => String.append "url/" u) "u2"
    = (.ok { id := "u2", username := "u2", displayName := "",
             avatarUrl := some "url/pic", bot := false, platform := "root-app" },
       [RootApp.RootAppCall.getUserProfile "u2"]) := rfl

/-- C6 (amended): on the Root App provider every messaging operation and
also `getChannel` and `getGuild` reject with their fixed messages naming
the operation as not supported in Root Apps, without any native call;
`getUser` is implemented and always performs the native profile fetch. -/
theorem claim_C6_stub_provider_amended :
    (∀ (cid : String) (o : Sum String MessageOptions),
      RootApp.sendMessage cid o = (.error RootApp.sendMessageStubMsg, []))
    ∧ (∀ mid cid content : String,
      RootApp.editMessage mid cid content = (.error RootApp.editMessageStubMsg, []))
    ∧ (∀ mid cid : String,
      RootApp.deleteMessage mid cid = (.error RootApp.deleteMessageStubMsg, []))
    ∧ (∀ cid : String, RootApp.getChannel cid = (.error RootApp.getChannelStubMsg, []))
    ∧ (∀ gid : String, RootApp.getGuild gid = (.error RootApp.getGuildStubMsg, []))
    ∧ (∀ (sdkp : String → Except String RootApp.UserProfile)
       (im : String → String) (uid : String),
      (RootApp.getUser sdkp im uid).2 = [RootApp.RootAppCall.getUserProfile uid]) := by
  refine ⟨fun _ _ => rfl, fun _ _ _ => rfl, fun _ _ => rfl, fun _ => rfl, fun _ => rfl, ?_⟩
  intro sdkp im uid
  cases h : sdkp uid <;> simp [RootApp.getUser, h]

/-- C3: constructing the unified client with a platform identifier whose
lowercase form is none of the three recognized ones makes `createProvider`
throw the `UnsupportedPlatformError` message naming the identifier, inside
the constructor, so no provider is ever instantiated (and `connect`, a
separate method, is never reached). -/
theorem claim_C3_unknown_platform (platform : String)
    (h : Client.jsToLowerCase platform ∉ (["discord", "root", "root-app"] : List String)) :
    Client.createProvider platform = .error (platformNotSupportedMsg platform)
    ∧ ∀ p, Client.createProvider platform ≠ .ok p := by
  simp only [List.mem_cons, List.mem_singleton, not_or] at h
  obtain ⟨h1, h2, h3⟩ := h
  have he : Client.createProvider platform = .error (platformNotSupportedMsg platform) := by
    simp [Client.createProvider, h1, h2, h3]
  refine ⟨he, ?_⟩
  intro p hp
  rw [he] at hp
  cases hp

/-- Witness for C3 at the unrecognized identifier `slack`. -/
theorem claim_C3_unknown_platform_witness :
    Client.createProvider "slack" = .error (platformNotSupportedMsg "slack") :=
  (claim_C3_unknown_platform "slack" (by decide)).1

/-- C8 counterexample: the claim fails as stated.  The `themeChange` event
emitted by the Root App provider's theme listener is not in the fixed
forwarding list, so the unified client drops it, while the forwarding the
spec describes would pass it through verbatim. -/
theorem claim_C8_event_forwarding_counterexample :
    Client.clientEmissions (RootApp.themeUpdateEmissions "dark")
        = ([] : List (String × String))
    ∧ Client.specForwardAllEvents (RootApp.themeUpdateEmissions "dark")
        = [("themeChange", "dark")] := ⟨rfl, rfl⟩

/-- C8 (amended): for provider emissions whose names all lie in the fixed
seventeen-event forwarding list, the unified client re-emits exactly the
provider's events, in order, with identical names and arguments — on that
list it coincides with the pass-through the spec describes. -/
theorem claim_C8_event_forwarding_amended {α : Type} (evs : List (String × α))
    (h : ∀ e ∈ evs, e.1 ∈ Client.forwardedEvents) :
    Client.clientEmissions evs = Client.specForwardAllEvents evs := by
  induction evs with
  | nil => rfl
  | cons e es ih =>
    have hmem : e.1 ∈ Client.forwardedEvents := h e (List.mem_cons_self ..)
    have hrest := ih (fun x hx => h x (List.mem_cons_of_mem _ hx))
    simp only [Client.clientEmissions, List.flatMap_cons] at hrest ⊢
    rw [hrest]
    simp [Client.clientForward, hmem, Client.specForwardAllEvents]

/-- Witness for the amended C8 on a two-event stream. -/
theorem claim_C8_event_forwarding_amended_witness :
    Client.clientEmissions [("message", 1), ("error", 2)]
      = Client.specForwardAllEvents [("message", 1), ("error", 2)] :=
  claim_C8_event_forwarding_amended [("message", 1), ("error", 2)] (by decide)

/-- C7: when conversion of one inbound native event throws, the listener
catches it and emits exactly the generic `error` event carrying that
error; in a stream containing the failing event, every earlier and later
event is still handled and emitted normally — the failure changes nothing
outside its own occurrence. -/
theorem claim_C7_event_conversion_isolation {ν μ : Type}
    (convertMessage : ν → Except String μ) (pre post : List ν) (bad : ν) (e : String)
    (hbad : convertMessage bad = .error e) :
    Discord.onMessageCreate convertMessage bad
        = [Discord.ListenerEmission.errorEvent e]
    ∧ Discord.processMessageCreateStream convertMessage (pre ++ bad :: post)
        = Discord.processMessageCreateStream convertMessage pre
          ++ Discord.ListenerEmission.errorEvent e
            :: Discord.processMessageCreateStream convertMessage post := by
  constructor
  · simp [Discord.onMessageCreate, hbad]
  · simp [Discord.processMessageCreateStream, Discord.onMessageCreate, hbad]

/-- Witness for C7: a stream with a malformed payload in the middle. -/
theorem claim_C7_event_conversion_isolation_witness :
    Discord.onMessageCreate
        (fun n : Nat => if n = 0 then .error "bad payload" else .ok n) 0
      = [Discord.ListenerEmission.errorEvent "bad payload"]
    ∧ Discord.processMessageCreateStream
        (fun n : Nat => if n = 0 then .error "bad payload" else .ok n) ([1] ++ 0 :: [2])
      = Discord.processMessageCreateStream
          (fun n : Nat => if n = 0 then .error "bad payload" else .ok n) [1]
        ++ Discord.ListenerEmission.errorEvent "bad payload"
          :: Discord.processMessageCreateStream
              (fun n : Nat => if n = 0 then .error "bad payload" else .ok n) [2] :=
  claim_C7_event_conversion_isolation
    (fun n : Nat => if n = 0 then .error "bad payload" else .ok n) [1] [2] 0
    "bad payload" rfl

end Bridge
namespace Bridge

theorem connectGo_attempts_le (att : Nat → Except String Unit) (idx rem : Nat) :
    (Root.connectGo att idx rem).attemptsUsed ≤ rem := by
  induction rem generalizing idx with
  | zero => simp [Root.connectGo]
  | succ rem ih =>
    cases hatt : att idx with
    | ok u => simp [Root.connectGo, hatt]
    | error e =>
      by_cases h0 : rem = 0
      · subst h0; simp [Root.connectGo, hatt]
      · simp only [Root.connectGo, hatt, if_neg h0]
        have := ih (idx + 1)
        omega

theorem connectGo_all_fail (att : Nat → Except String Unit) (emsg : Nat → String)
    (idx rem : Nat) (hrem : 1 ≤ rem)
    (hfail : ∀ i, idx ≤ i → i < idx + rem → att i = .error (emsg i)) :
    Root.connectGo att idx rem
      = ⟨false, rem, rem - 1, some (emsg (idx + rem - 1))⟩ := by
  induction rem generalizing idx with
  | zero => omega
  | succ rem ih =>
    have hatt : att idx = .error (emsg idx) :=
      hfail idx (Nat.le_refl idx) (by omega)
    by_cases h0 : rem = 0
    · subst h0
      have e : idx + 1 - 1 = idx := by omega
      simp [Root.connectGo, hatt, e]
    · have hrem' : 1 ≤ rem := by omega
      have hrec := ih (idx + 1) hrem' (fun i h1 h2 => hfail i (by omega) (by omega))
      simp only [Root.connectGo, hatt, if_neg h0, hrec]
      have e1 : rem - 1 + 1 = rem := by omega
      have e2 : idx + 1 + rem - 1 = idx + (rem + 1) - 1 := by omega
      have e3 : rem = rem + 1 - 1 := by omega
      rw [e1, e2]
      exact congrArg (fun n => Root.GoState.mk false (rem + 1) n
        (some (emsg (idx + (rem + 1) - 1)))) e3

theorem connectGo_first_success (att : Nat → Except String Unit) (emsg : Nat → String)
    (idx rem k : Nat) (hik : idx ≤ k) (hkr : k < idx + rem)
    (hfail : ∀ i, idx ≤ i → i < k → att i = .error (emsg i))
    (hsucc : att k = .ok ()) :
    Root.connectGo att idx rem = ⟨true, k - idx + 1, k - idx, none⟩ := by
  induction rem generalizing idx with
  | zero => omega
  | succ rem ih =>
    by_cases hk : k = idx
    · subst hk
      simp [Root.connectGo, hsucc]
    · have hlt : idx < k := lt_of_le_of_ne hik (Ne.symm hk)
      have hatt : att idx = .error (emsg idx) := hfail idx (Nat.le_refl idx) hlt
      have h0 : rem ≠ 0 := by omega
      have hrec := ih (idx + 1) (by omega) (by omega)
        (fun i h1 h2 => hfail i (by omega) h2)
      simp only [Root.connectGo, hatt, if_neg h0, hrec]
      have e1 : k - (idx + 1) + 1 + 1 = k - idx + 1 := by omega
      have e2 : k - (idx + 1) + 1 = k - idx := by omega
      rw [e1, e2]

/-- C9: `RootProvider.connect` runs at most the configured number of
attempts (default 5); an attempt whose native duration reaches the
configured timeout is observed as the raced `connect timeout` rejection;
if every attempt up to the bound fails the loop stops and throws the
terminal failure naming the attempt bound and the last error, having
slept the configured delay between consecutive attempts; and as soon as
one attempt succeeds the loop stops retrying at that attempt. -/
theorem claim_C9_bounded_connect_retries (cfg : Root.ConnectConfig)
    (attemptBehavior : Nat → Nat × Except String Unit) :
    ((Root.connect cfg attemptBehavior).attemptsUsed
        ≤ cfg.maxReconnectAttempts.getD 5)
    ∧ ((Root.connect cfg attemptBehavior).sleepDelayMs = cfg.reconnectDelay.getD 5000)
    ∧ (∀ i, cfg.connectTimeout.getD 30000 ≤ (attemptBehavior i).1 →
        Root.racedOutcome cfg attemptBehavior i = .error "connect timeout")
    ∧ (∀ emsg : Nat → String, 1 ≤ cfg.maxReconnectAttempts.getD 5 →
        (∀ i, 1 ≤ i → i ≤ cfg.maxReconnectAttempts.getD 5 →
          Root.racedOutcome cfg attemptBehavior i = .error (emsg i)) →
        Root.connect cfg attemptBehavior =
          ⟨.error (Root.connectFailMsg (cfg.maxReconnectAttempts.getD 5)
              (emsg (cfg.maxReconnectAttempts.getD 5))),
            cfg.maxReconnectAttempts.getD 5,
            cfg.maxReconnectAttempts.getD 5 - 1,
            cfg.reconnectDelay.getD 5000⟩)
    ∧ (∀ (emsg : Nat → String) (k : Nat), 1 ≤ k →
        k ≤ cfg.maxReconnectAttempts.getD 5 →
        (∀ i, 1 ≤ i → i < k →
          Root.racedOutcome cfg attemptBehavior i = .error (emsg i)) →
        Root.racedOutcome cfg attemptBehavior k = .ok () →
        Root.connect cfg attemptBehavior =
          ⟨.ok (), k, k - 1, cfg.reconnectDelay.getD 5000⟩) := by
  refine ⟨?_, ?_, ?_, ?_, ?_⟩
  · have h := connectGo_attempts_le (Root.racedOutcome cfg attemptBehavior) 1
      (cfg.maxReconnectAttempts.getD 5)
    simp only [Root.connect]
    split
    · simpa using h
    · simpa using h
  · simp only [Root.connect]
    split
    · rfl
    · rfl
  · intro i hi
    unfold Root.racedOutcome Root.raceAttempt
    rw [if_neg (Nat.not_lt.mpr hi)]
  · intro emsg hpos hfail
    have hgo := connectGo_all_fail (Root.racedOutcome cfg attemptBehavior) emsg 1
      (cfg.maxReconnectAttempts.getD 5) hpos
      (fun i h1 h2 => hfail i h1 (by omega))
    have e1 : 1 + cfg.maxReconnectAttempts.getD 5 - 1
        = cfg.maxReconnectAttempts.getD 5 := by omega
    rw [e1] at hgo
    simp only [Root.connect]
    rw [hgo]
    rfl
  · intro emsg k hk1 hk2 hfail hsucc
    have hgo := connectGo_first_success (Root.racedOutcome cfg attemptBehavior) emsg 1
      (cfg.maxReconnectAttempts.getD 5) k hk1 (by omega)
      (fun i h1 h2 => hfail i h1 h2) hsucc
    have e1 : k - 1 + 1 = k := by omega
    rw [e1] at hgo
    simp only [Root.connect]
    rw [hgo]
    rfl

/-- Witness for C9 with the default configuration: five failing attempts
produce the terminal failure after exactly 5 attempts and 4 sleeps; with
success on the second attempt the loop stops after 2 attempts. -/
theorem claim_C9_bounded_connect_retries_witness :
    Root.connect ⟨none, none, none⟩ (fun _ => (0, Except.error "boom"))
      = ⟨.error (Root.connectFailMsg 5 "boom"), 5, 4, 5000⟩
    ∧ Root.connect ⟨none, none, none⟩
        (fun i => (0, if i = 2 then Except.ok () else Except.error "boom"))
      = ⟨.ok (), 2, 1, 5000⟩ := by
  constructor
  · exact (claim_C9_bounded_connect_retries _ _).2.2.2.1 (fun _ => "boom")
      (by decide) (fun i _ _ => rfl)
  · exact (claim_C9_bounded_connect_retries _ _).2.2.2.2 (fun _ => "boom") 2
      (by decide) (by decide)
      (by
        intro i h1 h2
        have : i = 1 := by omega
        subst this
        rfl)
      rfl

end Bridge
